import Mathlib

/-!
Shallow embedding of the passkeys backend (`backend/server.js`, Redis-backed
variant) and of the client `SessionManager`, with theorems checking the
natural-language specification against the code.

The embedding mirrors, definition by definition:
- the ASCII lowercasing used by SQL `LOWER` / JS `toLowerCase` on usernames;
- the `validateUsername` helper and its constants;
- the Redis-backed challenge store (`storeChallenge`, `getAndValidateChallenge`)
  and session-token store (`createSessionToken`, `validateSessionToken`,
  `deleteSessionToken`), with the Redis connection modelled as a key-value
  list with per-entry expiry timestamps, a clock, and an availability flag
  (an unavailable connection makes every command fail, which the code
  catches or propagates exactly as the handlers do);
- the user / credential tables (`getUserByUsername`, `createUser`,
  `getCredentialById`, `saveCredential`, `updateCredentialCounter`) with the
  uniqueness constraints of the migrations;
- the `/api/register/complete` and `/api/authenticate/complete` handlers;
- the client `SessionManager` listener list.
-/

namespace Passkeys

/-! ### ASCII lowercasing (JS `String.prototype.toLowerCase` / SQL `LOWER`) -/

/-- Lowercase one character: ASCII uppercase letters are shifted by 32,
everything else is unchanged.  This is exactly what JS `toLowerCase` and SQL
`LOWER` do on the ASCII range used by this application. -/
def lowerChar (c : Char) : Char :=
  if 65 ≤ c.toNat ∧ c.toNat ≤ 90 then Char.ofNat (c.toNat + 32) else c

/-- JS `username.toLowerCase()` / SQL `LOWER(username)` on a whole string. -/
def jsToLower (s : String) : String :=
  String.mk (s.data.map lowerChar)

/-! ### JS `String.prototype.trim` -/

/-- The whitespace characters stripped by JS `trim` (the code points that
occur in practice: space, tab, line feed, carriage return, vertical tab,
form feed). -/
def isJsSpace (c : Char) : Bool :=
  c = ' ' || c = '\t' || c = '\n' || c = '\r' || c.toNat = 11 || c.toNat = 12

/-- JS `username.trim()`: strip whitespace from both ends. -/
def jsTrim (s : String) : String :=
  String.mk (((s.data.dropWhile isJsSpace).reverse.dropWhile isJsSpace).reverse)

/-! ### Username validation (`validateUsername` in `backend/server.js`) -/

def USERNAME_MIN_LENGTH : Nat := 3

def USERNAME_MAX_LENGTH : Nat := 20

def RESERVED_USERNAMES : List String :=
  ["admin", "administrator", "root", "user", "test", "demo", "api", "www",
   "mail", "email", "support", "help", "info", "contact", "service",
   "system", "null", "undefined", "guest", "anonymous"]

/-- The character class of `USERNAME_PATTERN = /^[a-zA-Z0-9_-]+$/`. -/
def isUsernameChar (c : Char) : Bool :=
  ('a' ≤ c && c ≤ 'z') || ('A' ≤ c && c ≤ 'Z') || ('0' ≤ c && c ≤ '9') ||
    c = '_' || c = '-'

/-- The separator class `[_-]`. -/
def isSepChar (c : Char) : Bool :=
  c = '_' || c = '-'

def isDigitChar (c : Char) : Bool :=
  '0' ≤ c && c ≤ '9'

/-- `USERNAME_PATTERN.test(t)`: the whole string is a nonempty run of
`[a-zA-Z0-9_-]`. -/
def matchesUsernamePattern (l : List Char) : Bool :=
  !l.isEmpty && l.all isUsernameChar

/-- `/[_-]{2,}/.test(t)`: some two consecutive characters are separators. -/
def hasConsecSep : List Char → Bool
  | a :: b :: rest => (isSepChar a && isSepChar b) || hasConsecSep (b :: rest)
  | _ => false

/-- `/^[_-]|[_-]$/.test(t)`: the first or last character is a separator. -/
def startsOrEndsWithSep (l : List Char) : Bool :=
  (match l.head? with
   | some c => isSepChar c
   | none => false) ||
  (match l.getLast? with
   | some c => isSepChar c
   | none => false)

/-- `/^[0-9]+$/.test(t)`: a nonempty string of digits only. -/
def allDigits (l : List Char) : Bool :=
  !l.isEmpty && l.all isDigitChar

structure ValidationResult where
  isValid : Bool
  errors : List String
deriving DecidableEq, Repr

/-- `validateUsername` from `backend/server.js` (identical copy in the
Redis-backed server): required check on the raw input, then all format
checks on the trimmed input, errors pushed in source order. -/
def validateUsername (username : String) : ValidationResult :=
  if username = "" || jsTrim username = "" then
    { isValid := false, errors := ["Username is required"] }
  else
    let t := jsTrim username
    let errors : List String :=
      (if t.data.length < USERNAME_MIN_LENGTH then
        ["Username must be at least 3 characters long"] else []) ++
      (if t.data.length > USERNAME_MAX_LENGTH then
        ["Username must be no more than 20 characters long"] else []) ++
      (if !matchesUsernamePattern t.data then
        ["Username can only contain letters, numbers, underscores, and hyphens"] else []) ++
      (if RESERVED_USERNAMES.contains (jsToLower t) then
        ["This username is reserved and cannot be used"] else []) ++
      (if hasConsecSep t.data then
        ["Username cannot contain consecutive underscores or hyphens"] else []) ++
      (if startsOrEndsWithSep t.data then
        ["Username cannot start or end with underscores or hyphens"] else []) ++
      (if allDigits t.data then
        ["Username cannot be only numbers"] else [])
    { isValid := errors.isEmpty, errors := errors }

/-! ### The Redis connection

Modelled as an association list from keys to values with an absolute expiry
timestamp per entry, a millisecond clock, and an availability flag.  The two
key prefixes used by the code, `challenge:` and `session:`, are modelled as
the two constructors of `RKey` (prefixing with distinct literals is an
injective disjoint tagging of the token).  A command issued while the
connection is down rejects, modelled as `Except.error`. -/

inductive RKey
  | challenge (token : String)
  | session (token : String)
deriving DecidableEq, Repr

/-- The session record `{userId, username, loginTime, sessionId}` stored
(JSON-serialized) under a `session:` key. -/
structure SessionData where
  userId : Nat
  username : String
  loginTime : Nat
  sessionId : String
deriving DecidableEq, Repr

/-- A stored Redis value: either a raw challenge string or a JSON-serialized
session record (serialization and parsing are modelled as the identity
round-trip on the record). -/
inductive RVal
  | chal (challenge : String)
  | sess (data : SessionData)
deriving DecidableEq, Repr

def RVal.asChal : RVal → Option String
  | .chal c => some c
  | .sess _ => none

def RVal.asSess : RVal → Option SessionData
  | .sess d => some d
  | .chal _ => none

structure Entry where
  value : RVal
  expiresAt : Nat
deriving DecidableEq, Repr

structure Redis where
  up : Bool
  now : Nat
  entries : List (RKey × Entry)
deriving DecidableEq, Repr

def rlookup (st : Redis) (k : RKey) : Option Entry :=
  (st.entries.find? (fun p => p.1 == k)).map Prod.snd

/-- `redisClient.get(key)`: `none` for an absent or TTL-expired key. -/
def rget (st : Redis) (k : RKey) : Except Unit (Option RVal) :=
  if st.up then
    match rlookup st k with
    | some e => if st.now < e.expiresAt then .ok (some e.value) else .ok none
    | none => .ok none
  else .error ()

/-- `redisClient.setEx(key, seconds, value)`: replaces the key with a fresh
expiry of `seconds` from now. -/
def rsetEx (st : Redis) (k : RKey) (seconds : Nat) (v : RVal) : Except Unit Redis :=
  if st.up then
    .ok { st with
          entries := (k, ⟨v, st.now + seconds * 1000⟩) ::
            st.entries.filter (fun p => p.1 != k) }
  else .error ()

/-- `redisClient.del(key)`. -/
def rdel (st : Redis) (k : RKey) : Except Unit Redis :=
  if st.up then .ok { st with entries := st.entries.filter (fun p => p.1 != k) }
  else .error ()

/-! ### Challenge store -/

def CHALLENGE_TIMEOUT : Nat := 5 * 60 * 1000

def SESSION_TOKEN_TIMEOUT : Nat := 7 * 24 * 60 * 60 * 1000

/-- `storeChallenge(challenge)`; the fresh `uuidv4()` token is passed as an
explicit argument.  A Redis failure propagates (`throw new Error('Failed to
store challenge - Redis unavailable')`), modelled as `Except.error`. -/
def storeChallenge (st : Redis) (token challenge : String) :
    Except Unit (String × Redis) :=
  match rsetEx st (.challenge token) (CHALLENGE_TIMEOUT / 1000) (.chal challenge) with
  | .ok st1 => .ok (token, st1)
  | .error e => .error e

/-- `getAndValidateChallenge(token)`: read then delete (one-time use).  A
missing token, an absent/expired key, and a caught Redis error all return
`null`; per the code comment the error case deliberately returns `null`
"to allow graceful degradation" instead of surfacing a distinct failure. -/
def getAndValidateChallenge (st : Redis) (token : Option String) :
    Option String × Redis :=
  match token with
  | none => (none, st)
  | some t =>
    match rget st (.challenge t) with
    | .error _ => (none, st)
    | .ok none => (none, st)
    | .ok (some v) =>
      match v.asChal with
      | none => (none, st)
      | some c =>
        if c = "" then (none, st)
        else
          match rdel st (.challenge t) with
          | .error _ => (none, st)
          | .ok st1 => (some c, st1)

/-! ### Session token store -/

/-- `createSessionToken(userId, username)`; the fresh `uuidv4()` token and
inner sessionId are passed as explicit arguments.  `loginTime` is the
current clock.  A Redis failure propagates. -/
def createSessionToken (st : Redis) (token sessionId : String) (userId : Nat)
    (username : String) : Except Unit (String × Redis) :=
  match rsetEx st (.session token) (SESSION_TOKEN_TIMEOUT / 1000)
      (.sess { userId := userId, username := username, loginTime := st.now,
               sessionId := sessionId }) with
  | .ok st1 => .ok (token, st1)
  | .error e => .error e

/-- `validateSessionToken(token)`: reads the record and, when found,
re-issues `setEx` with the full timeout ("Refresh token expiration"),
returning the parsed record.  All failures (missing token, absent/expired
key, parse error, Redis error) return `null`. -/
def validateSessionToken (st : Redis) (token : Option String) :
    Option SessionData × Redis :=
  match token with
  | none => (none, st)
  | some t =>
    match rget st (.session t) with
    | .error _ => (none, st)
    | .ok none => (none, st)
    | .ok (some v) =>
      match v.asSess with
      | none => (none, st)
      | some d =>
        match rsetEx st (.session t) (SESSION_TOKEN_TIMEOUT / 1000) v with
        | .error _ => (none, st)
        | .ok st1 => (some d, st1)

/-- `deleteSessionToken(token)`: best-effort delete, errors are caught. -/
def deleteSessionToken (st : Redis) (token : Option String) : Redis :=
  match token with
  | none => st
  | some t =>
    match rdel st (.session t) with
    | .error _ => st
    | .ok st1 => st1

/-! ### Relational store (users, passkey_credentials) -/

structure UserRow where
  id : Nat
  username : String
deriving DecidableEq, Repr

structure CredRow where
  id : String
  userId : Nat
  rawId : String
  publicKey : String
  rpId : String
  counter : Nat
deriving DecidableEq, Repr

structure DB where
  users : List UserRow
  credentials : List CredRow
deriving DecidableEq, Repr

/-- `SELECT * FROM users WHERE LOWER(username) = LOWER($1)` (first row). -/
def getUserByUsername (db : DB) (username : String) : Option UserRow :=
  db.users.find? (fun r => jsToLower r.username == jsToLower username)

/-- `INSERT INTO users (username) VALUES ($1)` with
`username.toLowerCase()`; the serial id is modelled as the row count. -/
def createUser (db : DB) (username : String) : UserRow × DB :=
  let r : UserRow := { id := db.users.length, username := jsToLower username }
  (r, { db with users := db.users ++ [r] })

/-- The find-or-create sequence of `/api/register/begin` (look up, create on
miss). -/
def findOrCreateUser (db : DB) (username : String) : UserRow × DB :=
  match getUserByUsername db username with
  | some u => (u, db)
  | none => createUser db username

/-- A credential row joined with its owner's username, as returned by
`getCredentialById`. -/
structure CredWithOwner where
  cred : CredRow
  username : String
deriving DecidableEq, Repr

/-- `SELECT pc.*, u.username FROM passkey_credentials pc JOIN users u ON
pc.user_id = u.id WHERE pc.id = $1` (first row; the join drops a credential
whose owner row is missing). -/
def getCredentialById (db : DB) (credentialId : String) : Option CredWithOwner :=
  match db.credentials.find? (fun c => c.id == credentialId) with
  | none => none
  | some c =>
    match db.users.find? (fun u => u.id == c.userId) with
    | none => none
    | some u => some { cred := c, username := u.username }

/-- The unique constraints of the passkey_credentials table: the primary key
on `id`, `unique_user_rp` on `(user_id, rp_id)`, and `unique_raw_id` on
`raw_id`; a violated insert raises PostgreSQL error 23505 carrying the
constraint name. -/
inductive PgConstraint
  | pkey
  | uniqueUserRp
  | uniqueRawId
deriving DecidableEq, Repr

/-- `INSERT INTO passkey_credentials (id, user_id, raw_id, public_key, rp_id)`;
the counter column defaults to 0. -/
def saveCredential (db : DB) (userId : Nat)
    (credentialId publicKey rawId rpId : String) : Except PgConstraint DB :=
  if db.credentials.any (fun c => c.id == credentialId) then
    .error .pkey
  else if db.credentials.any (fun c => c.userId == userId && c.rpId == rpId) then
    .error .uniqueUserRp
  else if db.credentials.any (fun c => c.rawId == rawId) then
    .error .uniqueRawId
  else
    .ok { db with
          credentials := db.credentials ++
            [{ id := credentialId, userId := userId, rawId := rawId,
               publicKey := publicKey, rpId := rpId, counter := 0 }] }

/-- `UPDATE passkey_credentials SET counter = $1 ... WHERE id = $2`. -/
def updateCredentialCounter (db : DB) (credentialId : String) (counter : Nat) : DB :=
  { db with
    credentials := db.credentials.map
      (fun c => if c.id == credentialId then { c with counter := counter } else c) }

/-! ### Verification adapter (the external @simplewebauthn/server library) -/

/-- A registration ceremony result as received by `/api/register/complete`:
the browser credential id, the challenge embedded in
`response.clientDataJSON`, the id and public key the library extracts, and
one abstract flag (`intrinsicOk`) standing for every other check the
library performs (attestation signature, origin, RP id). -/
structure RegCredential where
  id : String
  embeddedChallenge : String
  intrinsicOk : Bool
  extractedId : String
  publicKey : String
deriving DecidableEq, Repr

structure RegistrationInfo where
  credentialPublicKey : String
  credentialID : String
deriving DecidableEq, Repr

structure RegVerification where
  verified : Bool
  registrationInfo : Option RegistrationInfo
deriving DecidableEq, Repr

/-- Modelled from the spec: `VerificationAdapter.verifyRegistration` (the
external `verifyRegistrationResponse`, absent from the repository source),
per §6 a trusted black box that "takes a signed assertion/attestation plus
expected challenge/origin/RP-ID and returns verified/not-verified plus
extracted public key"; it verifies exactly when the ceremony's embedded
challenge equals the expected challenge and the remaining checks
(abstracted as `intrinsicOk`) pass. -/
def verifyRegistrationResponse (cred : RegCredential) (expectedChallenge : String) :
    RegVerification :=
  if cred.embeddedChallenge == expectedChallenge && cred.intrinsicOk then
    { verified := true,
      registrationInfo := some
        { credentialPublicKey := cred.publicKey, credentialID := cred.extractedId } }
  else
    { verified := false, registrationInfo := none }

/-- An authentication ceremony result as received by
`/api/authenticate/complete`. -/
structure AuthCredential where
  id : String
  rawId : String
  embeddedChallenge : String
  intrinsicOk : Bool
  newCounter : Nat
deriving DecidableEq, Repr

structure AuthVerification where
  verified : Bool
  newCounter : Nat
deriving DecidableEq, Repr

/-- Modelled from the spec: `VerificationAdapter.verifyAuthentication` (the
external `verifyAuthenticationResponse`, absent from the repository
source); verifies exactly when the embedded challenge equals the expected
challenge and the signature/origin/RP-ID/counter checks (abstracted as
`intrinsicOk`) pass, and reports the authenticator's new signature
counter. -/
def verifyAuthenticationResponse (cred : AuthCredential) (expectedChallenge : String) :
    AuthVerification :=
  { verified := cred.embeddedChallenge == expectedChallenge && cred.intrinsicOk,
    newCounter := cred.newCounter }

/-! ### The complete-handlers of the orchestrator -/

/-- The JSON body sent by a handler, restricted to the fields the handlers
actually emit; absent fields are `none`. -/
structure ApiResponse where
  status : Nat
  verified : Option Bool
  error : Option String
  message : Option String
  credentialId : Option String
  username : Option String
  sessionId : Option String
  sessionToken : Option String
  challengeToken : Option String
deriving DecidableEq, Repr

def ApiResponse.empty : ApiResponse :=
  { status := 200, verified := none, error := none, message := none,
    credentialId := none, username := none, sessionId := none,
    sessionToken := none, challengeToken := none }

structure ServerState where
  redis : Redis
  db : DB
deriving DecidableEq, Repr

structure RegRequest where
  username : String
  credential : Option RegCredential
  challengeToken : Option String
deriving DecidableEq, Repr

def RP_ID : String := "localhost"

/-- `POST /api/register/complete`.  The fresh `uuidv4()` values generated
during the call (`createUserSession`'s sessionId and the session token) are
passed as explicit arguments.  Mirrors the source branch for branch:
required-field check, challenge consumption, user lookup, duplicate
pre-check (returning success with an informational message and no session),
verification, duplicate re-check, save with the caught 23505
unique-violation fallback (returning success with a constraint-dependent
message and a freshly issued session), and session issuance. -/
def registerComplete (st : ServerState) (req : RegRequest)
    (freshSessionId freshToken : String) : ApiResponse × ServerState :=
  match req.credential, req.challengeToken with
  | some cred, some tok =>
    if req.username = "" then
      ({ ApiResponse.empty with
         status := 400,
         error := some "Username, credential, and challenge token are required" }, st)
    else
      let consumed := getAndValidateChallenge st.redis (some tok)
      let redis1 := consumed.2
      match consumed.1 with
      | none =>
        ({ ApiResponse.empty with
           status := 400,
           error := some "Invalid or expired challenge" },
         { st with redis := redis1 })
      | some chal =>
        match getUserByUsername st.db req.username with
        | none =>
          ({ ApiResponse.empty with
             status := 400, error := some "User not found" },
           { st with redis := redis1 })
        | some user =>
          match getCredentialById st.db cred.id with
          | some _ =>
            ({ ApiResponse.empty with
               status := 200, verified := some true,
               credentialId := some cred.id, username := some user.username,
               message := some "Credential already registered" },
             { st with redis := redis1 })
          | none =>
            let verification := verifyRegistrationResponse cred chal
            match verification.registrationInfo,
                  verification.verified with
            | some info, true =>
              match getCredentialById st.db cred.id with
              | some _ =>
                ({ ApiResponse.empty with
                   status := 200, verified := some true,
                   credentialId := some cred.id, username := some user.username,
                   message := some "Credential already registered" },
                 { st with redis := redis1 })
              | none =>
                match saveCredential st.db user.id cred.id
                    info.credentialPublicKey info.credentialID RP_ID with
                | .ok db1 =>
                  match createSessionToken redis1 freshToken freshSessionId
                      user.id user.username with
                  | .ok (tok2, redis2) =>
                    ({ ApiResponse.empty with
                       status := 200, verified := some true,
                       credentialId := some cred.id, username := some user.username,
                       sessionId := some freshSessionId, sessionToken := some tok2 },
                     { redis := redis2, db := db1 })
                  | .error _ =>
                    ({ ApiResponse.empty with
                       status := 200, verified := some true,
                       credentialId := some cred.id, username := some user.username,
                       sessionId := some freshSessionId, sessionToken := none },
                     { redis := redis1, db := db1 })
                | .error constraintViolated =>
                  let message :=
                    match constraintViolated with
                    | .uniqueUserRp => "User already has a passkey for this service"
                    | .uniqueRawId => "This passkey is already registered"
                    | .pkey => "Credential already registered"
                  match getUserByUsername st.db req.username with
                  | some user2 =>
                    match createSessionToken redis1 freshToken freshSessionId
                        user2.id user2.username with
                    | .ok (tok2, redis2) =>
                      ({ ApiResponse.empty with
                         status := 200, verified := some true,
                         credentialId := some cred.id, username := some req.username,
                         message := some message, sessionId := some freshSessionId,
                         sessionToken := some tok2 },
                       { redis := redis2, db := st.db })
                    | .error _ =>
                      ({ ApiResponse.empty with
                         status := 200, verified := some true,
                         credentialId := some cred.id, username := some req.username,
                         message := some message, sessionId := some freshSessionId,
                         sessionToken := none },
                       { redis := redis1, db := st.db })
                  | none =>
                    ({ ApiResponse.empty with
                       status := 200, verified := some true,
                       credentialId := some cred.id, username := some req.username,
                       message := some message, sessionId := none,
                       sessionToken := none },
                     { redis := redis1, db := st.db })
            | _, _ =>
              ({ ApiResponse.empty with
                 status := 400,
                 error := some "Registration verification failed" },
               { st with redis := redis1 })
  | _, _ =>
    ({ ApiResponse.empty with
       status := 400,
       error := some "Username, credential, and challenge token are required" }, st)

structure AuthRequest where
  credential : Option AuthCredential
  challengeToken : Option String
deriving DecidableEq, Repr

/-- `POST /api/authenticate/complete`.  `normalizeB64` stands for the
external `base64url.encode(base64url.toBuffer(s))` re-encoding used by the
rawId fallback lookup; fresh uuids are explicit arguments.  Mirrors the
source: required-field check, credential lookup by id then by normalized
rawId, clientDataJSON parse, challenge consumption keyed by the
caller-supplied token, library verification against the stored challenge,
counter update and session issuance. -/
def authenticateComplete (st : ServerState) (req : AuthRequest)
    (normalizeB64 : String → String) (freshSessionId freshToken : String) :
    ApiResponse × ServerState :=
  match req.credential, req.challengeToken with
  | some cred, some tok =>
    let firstLookup := getCredentialById st.db cred.id
    let stored :=
      match firstLookup with
      | some c => some c
      | none => getCredentialById st.db (normalizeB64 cred.rawId)
    match stored with
    | none =>
      ({ ApiResponse.empty with
         status := 400,
         error := some "Credential not found" }, st)
    | some storedCredential =>
      let consumed := getAndValidateChallenge st.redis (some tok)
      let redis1 := consumed.2
      match consumed.1 with
      | none =>
        ({ ApiResponse.empty with
           status := 400,
           error := some "Invalid or expired challenge" },
         { st with redis := redis1 })
      | some chal =>
        let verification := verifyAuthenticationResponse cred chal
        if verification.verified then
          let db1 := updateCredentialCounter st.db storedCredential.cred.id
            verification.newCounter
          match getUserByUsername st.db storedCredential.username with
          | none =>
            ({ ApiResponse.empty with
               status := 500,
               error := some "Failed to verify authentication" },
             { redis := redis1, db := db1 })
          | some user =>
            match createSessionToken redis1 freshToken freshSessionId
                user.id user.username with
            | .ok (tok2, redis2) =>
              ({ ApiResponse.empty with
                 status := 200, verified := some true,
                 username := some storedCredential.username,
                 sessionId := some freshSessionId, sessionToken := some tok2 },
               { redis := redis2, db := db1 })
            | .error _ =>
              ({ ApiResponse.empty with
                 status := 200, verified := some true,
                 username := some storedCredential.username,
                 sessionId := some freshSessionId, sessionToken := none },
               { redis := redis1, db := db1 })
        else
          ({ ApiResponse.empty with
             status := 400,
             error := some "Authentication verification failed" },
           { st with redis := redis1 })
  | _, _ =>
    ({ ApiResponse.empty with
       status := 400,
       error := some "Credential and challenge token are required" }, st)

/-- The challenge-storing step of `/api/register/begin`: a `storeChallenge`
failure is caught and mapped to a retryable 500 response, otherwise the
challenge token is attached to the ceremony options. -/
def registerBeginStoreChallenge (st : Redis) (token challenge : String) :
    ApiResponse × Redis :=
  match storeChallenge st token challenge with
  | .ok (tok, st1) =>
    ({ ApiResponse.empty with
       status := 200, challengeToken := some tok }, st1)
  | .error _ =>
    ({ ApiResponse.empty with
       status := 500,
       error := some "Registration service temporarily unavailable. Please try again later." },
     st)

/-- The username-validation and find-or-create prefix of
`/api/register/begin` (everything before the ceremony options are built). -/
def registerBeginFindUser (db : DB) (username : String) :
    Except ApiResponse (UserRow × DB) :=
  let validation := validateUsername username
  if !validation.isValid then
    .error { ApiResponse.empty with
               status := 400
               error := some ("Invalid username: " ++
                 String.intercalate ", " validation.errors) }
  else if username = "" || jsTrim username = "" then
    .error { ApiResponse.empty with
               status := 400
               error := some "Username is required" }
  else
    .ok (findOrCreateUser db username)

/-- The body of `GET /api/auth/status` restricted to the session-token
branch (no cookie session present); `expiresAt` is kept in epoch
milliseconds (the source renders it as an ISO string). -/
structure StatusResponse where
  authenticated : Bool
  userId : Option Nat
  username : Option String
  sessionId : Option String
  loginTime : Option Nat
  expiresAt : Option Nat
deriving DecidableEq, Repr

def StatusResponse.unauthenticated : StatusResponse :=
  { authenticated := false, userId := none, username := none,
    sessionId := none, loginTime := none, expiresAt := none }

/-- The token branch of `GET /api/auth/status`: validate the bearer token
and advertise `expiresAt = sessionData.loginTime + SESSION_TOKEN_TIMEOUT`. -/
def authStatusTokenBranch (st : Redis) (token : Option String) :
    StatusResponse × Redis :=
  match token with
  | none => (StatusResponse.unauthenticated, st)
  | some t =>
    let validated := validateSessionToken st (some t)
    match validated.1 with
    | some d =>
      ({ authenticated := true, userId := some d.userId,
         username := some d.username, sessionId := some d.sessionId,
         loginTime := some d.loginTime,
         expiresAt := some (d.loginTime + SESSION_TOKEN_TIMEOUT) }, validated.2)
    | none => (StatusResponse.unauthenticated, validated.2)

/-! ### Operation sequences over the Redis-backed stores -/

/-- One API-level store operation; used to quantify over arbitrary
operation sequences.  `tick` lets the clock advance between operations. -/
inductive Op
  | mint (token challenge : String)
  | consume (token : Option String)
  | screate (token sessionId : String) (userId : Nat) (username : String)
  | svalidate (token : Option String)
  | sdelete (token : Option String)
  | tick (ms : Nat)
deriving DecidableEq, Repr

def applyOp (st : Redis) : Op → Redis
  | .mint token challenge =>
    match storeChallenge st token challenge with
    | .ok (_, st1) => st1
    | .error _ => st
  | .consume token => (getAndValidateChallenge st token).2
  | .screate token sid uid uname =>
    match createSessionToken st token sid uid uname with
    | .ok (_, st1) => st1
    | .error _ => st
  | .svalidate token => (validateSessionToken st token).2
  | .sdelete token => deleteSessionToken st token
  | .tick ms => { st with now := st.now + ms }

def applyOps (st : Redis) (ops : List Op) : Redis :=
  ops.foldl applyOp st

/-- Does this operation mint (store) a challenge under token `T`? -/
def Op.mintsToken (T : String) : Op → Bool
  | .mint t _ => t == T
  | _ => false

/-! ### Client SessionManager (`src/services/SessionManager.ts`) -/

/-- The listener array and timer handles of the client `SessionManager`;
listeners are identified by an opaque id (JS compares function
identity). -/
structure SMState where
  listeners : List Nat
  checkInterval : Option Nat
  expirationTimeout : Option Nat
deriving DecidableEq, Repr

/-- `addEventListener(listener)`: push onto the listener array (the
unsubscribe closure it returns is `unsubscribeListener l`). -/
def SMState.addEventListener (s : SMState) (l : Nat) : SMState :=
  { s with listeners := s.listeners ++ [l] }

/-- `listeners.splice(i, 1)` at the in-range index produced by a successful
`indexOf`; `none` models an out-of-range access, so that "completes
normally" is an explicit conclusion rather than an artifact of totality. -/
def splice1 (xs : List Nat) (i : Nat) : Option (List Nat) :=
  if i < xs.length then some (xs.eraseIdx i) else none

/-- The unsubscribe closure returned by `addEventListener`: `indexOf` the
captured listener and `splice` it out when the index is `> -1`. -/
def unsubscribeListener (l : Nat) (s : SMState) : Option SMState :=
  match s.listeners.findIdx? (fun x => x == l) with
  | some i => (splice1 s.listeners i).map (fun ls => { s with listeners := ls })
  | none => some s

/-- `clearSessionMonitoring()`. -/
def SMState.clearSessionMonitoring (s : SMState) : SMState :=
  { s with checkInterval := none, expirationTimeout := none }

/-- `destroy()`: clear the monitoring timers and empty the listener
array. -/
def SMState.destroy (s : SMState) : SMState :=
  { s.clearSessionMonitoring with listeners := [] }


/-! ## Theorems -/

theorem toNat_ofNat_valid {n : Nat} (h : n.isValidChar) : (Char.ofNat n).toNat = n := by
  unfold Char.ofNat
  rw [dif_pos h]
  rfl

theorem toNat_lowerChar (c : Char) :
    (lowerChar c).toNat = if 65 ≤ c.toNat ∧ c.toNat ≤ 90 then c.toNat + 32 else c.toNat := by
  unfold lowerChar
  split
  · rename_i h
    exact toNat_ofNat_valid (Or.inl (by omega))
  · rfl

theorem lowerChar_eq_self (c : Char) (h : ¬(65 ≤ c.toNat ∧ c.toNat ≤ 90)) :
    lowerChar c = c := by
  unfold lowerChar
  rw [if_neg h]

theorem lowerChar_idem (c : Char) : lowerChar (lowerChar c) = lowerChar c := by
  apply lowerChar_eq_self
  rw [toNat_lowerChar]
  by_cases h : 65 ≤ c.toNat ∧ c.toNat ≤ 90
  · rw [if_pos h]; omega
  · rw [if_neg h]; omega

theorem jsToLower_idem (s : String) : jsToLower (jsToLower s) = jsToLower s := by
  unfold jsToLower
  cases s with
  | mk data =>
    congr 1
    rw [List.map_map]
    apply List.map_congr_left
    intro c _
    exact lowerChar_idem c

/-! ### Case-insensitive user identity (C7, C9 support) -/

theorem getUserByUsername_congr (db : DB) {u v : String}
    (hv : jsToLower v = jsToLower u) :
    getUserByUsername db v = getUserByUsername db u := by
  unfold getUserByUsername
  congr 1
  funext r
  rw [hv]

theorem findOrCreateUser_roundtrip (db : DB) (u v : String)
    (hv : jsToLower v = jsToLower u) :
    findOrCreateUser (findOrCreateUser db u).2 v =
      ((findOrCreateUser db u).1, (findOrCreateUser db u).2) := by
  unfold findOrCreateUser
  cases hfind : getUserByUsername db u with
  | some r =>
    simp only [hfind]
    rw [getUserByUsername_congr db hv, hfind]
  | none =>
    simp only [hfind]
    have hpred : (jsToLower (jsToLower u) == jsToLower v) = true := by
      rw [jsToLower_idem, hv]
      exact beq_self_eq_true _
    have hnone :
        (db.users.find? fun r => jsToLower r.username == jsToLower v) = none := by
      have h1 : (fun r : UserRow => jsToLower r.username == jsToLower v) =
          (fun r : UserRow => jsToLower r.username == jsToLower u) := by
        funext r
        rw [hv]
      rw [h1]
      unfold getUserByUsername at hfind
      exact hfind
    have hfound : getUserByUsername (createUser db u).2 v = some (createUser db u).1 := by
      unfold getUserByUsername createUser
      simp only [List.find?_append, hnone, List.find?, hpred, Option.none_orElse,
        Option.none_or]
    simp only [hfound]

/-- C7: user identity is case-insensitive. -/
theorem findOrCreateUser_case_insensitive (db : DB) (u : String) :
    (findOrCreateUser (findOrCreateUser db u).2 (jsToLower u) =
      ((findOrCreateUser db u).1, (findOrCreateUser db u).2)) ∧
    (findOrCreateUser (findOrCreateUser db (jsToLower u)).2 u =
      ((findOrCreateUser db (jsToLower u)).1, (findOrCreateUser db (jsToLower u)).2)) :=
  ⟨findOrCreateUser_roundtrip db u (jsToLower u) (jsToLower_idem u),
   findOrCreateUser_roundtrip db (jsToLower u) u (jsToLower_idem u).symm⟩

/-- C8: the username validator, as a pure function, decides exactly the
specification's table: "ab" is invalid (too short), "admin" is invalid
(reserved word), "al--ice" is invalid (consecutive separators), "_alice"
is invalid (leading separator), "alice123" is valid with an empty error
list, and "12345" is invalid (all digits). -/
theorem validateUsername_table :
    validateUsername "ab" =
      ⟨false, ["Username must be at least 3 characters long"]⟩ ∧
    validateUsername "admin" =
      ⟨false, ["This username is reserved and cannot be used"]⟩ ∧
    validateUsername "al--ice" =
      ⟨false, ["Username cannot contain consecutive underscores or hyphens"]⟩ ∧
    validateUsername "_alice" =
      ⟨false, ["Username cannot start or end with underscores or hyphens"]⟩ ∧
    validateUsername "alice123" = ⟨true, []⟩ ∧
    validateUsername "12345" =
      ⟨false, ["Username cannot be only numbers"]⟩ := by
  decide

/-- C10: calling the unsubscribe closure returned by `addEventListener`
after the agent's `destroy()` completes normally (the splice path that
could go out of range is never taken) and leaves the already-emptied
listener list empty. -/
theorem unsubscribe_after_destroy (s : SMState) (l : Nat) :
    unsubscribeListener l (SMState.destroy s) = some (SMState.destroy s) ∧
    (SMState.destroy s).listeners = [] :=
  ⟨rfl, rfl⟩

/-! ### Entry-preservation lemmas for the Redis stores (C1 support) -/

theorem mem_of_mem_rsetEx {st : Redis} {k : RKey} {secs : Nat} {v : RVal} {st1 : Redis}
    (h : rsetEx st k secs v = .ok st1) :
    ∀ p ∈ st1.entries, p.1 = k ∨ p ∈ st.entries := by
  unfold rsetEx at h
  split at h
  · cases h
    intro p hp
    rcases List.mem_cons.mp hp with h1 | h2
    · left
      rw [h1]
    · right
      exact (List.mem_filter.mp h2).1
  · nomatch h

theorem mem_of_mem_rdel {st : Redis} {k : RKey} {st1 : Redis}
    (h : rdel st k = .ok st1) :
    ∀ p ∈ st1.entries, p ∈ st.entries ∧ p.1 ≠ k := by
  unfold rdel at h
  split at h
  · cases h
    intro p hp
    have h2 := List.mem_filter.mp hp
    refine ⟨h2.1, ?_⟩
    simpa using h2.2
  · nomatch h

theorem storeChallenge_ok {st : Redis} {t ch tok : String} {st1 : Redis}
    (h : storeChallenge st t ch = .ok (tok, st1)) :
    rsetEx st (RKey.challenge t) (CHALLENGE_TIMEOUT / 1000) (RVal.chal ch) = .ok st1 := by
  unfold storeChallenge at h
  split at h
  · rename_i st2 heq
    cases h
    exact heq
  · nomatch h

theorem createSessionToken_ok {st : Redis} {t sid uname tok : String} {uid : Nat}
    {st1 : Redis} (h : createSessionToken st t sid uid uname = .ok (tok, st1)) :
    rsetEx st (RKey.session t) (SESSION_TOKEN_TIMEOUT / 1000)
      (RVal.sess ⟨uid, uname, st.now, sid⟩) = .ok st1 := by
  unfold createSessionToken at h
  split at h
  · rename_i st2 heq
    cases h
    exact heq
  · nomatch h

/-- The state left by `getAndValidateChallenge` is either untouched or the
original with all entries under the consumed challenge key removed. -/
theorem consume_entries_cases (st : Redis) (tok : Option String) :
    (getAndValidateChallenge st tok).2 = st ∨
    ∃ t, tok = some t ∧
      (getAndValidateChallenge st tok).2 =
        { st with entries := st.entries.filter (fun p => p.1 != RKey.challenge t) } := by
  unfold getAndValidateChallenge
  cases tok with
  | none => exact Or.inl rfl
  | some t =>
    rcases hg : rget st (RKey.challenge t) with e | o
    · simp [hg]
    · cases o with
      | none =>
        simp [hg]
      | some v =>
        cases hvc : v.asChal with
        | none =>
          simp [hg, hvc]
        | some c =>
          by_cases hc : c = ""
          · simp [hg, hvc, hc]
          · simp only [hg, hvc, if_neg hc]
            rcases hd : rdel st (RKey.challenge t) with e2 | st2
            · simp [hd]
            · simp only [hd]
              right
              refine ⟨t, rfl, ?_⟩
              unfold rdel at hd
              split at hd
              · cases hd
                rfl
              · nomatch hd

/-- The state left by `validateSessionToken` is either untouched or the
original with the validated session entry re-inserted with a fresh
expiry. -/
theorem validate_entries_cases (st : Redis) (tok : Option String) :
    (validateSessionToken st tok).2 = st ∨
    ∃ t e, tok = some t ∧
      (validateSessionToken st tok).2 =
        { st with entries := (RKey.session t, e) ::
            st.entries.filter (fun p => p.1 != RKey.session t) } := by
  unfold validateSessionToken
  cases tok with
  | none => exact Or.inl rfl
  | some t =>
    rcases hg : rget st (RKey.session t) with e | o
    · simp [hg]
    · cases o with
      | none =>
        simp [hg]
      | some v =>
        cases hvs : v.asSess with
        | none =>
          simp [hg, hvs]
        | some d =>
          simp only [hg, hvs]
          rcases hs : rsetEx st (RKey.session t) (SESSION_TOKEN_TIMEOUT / 1000) v with e2 | st2
          · simp [hs]
          · simp only [hs]
            right
            refine ⟨t, ⟨v, st.now + (SESSION_TOKEN_TIMEOUT / 1000) * 1000⟩, rfl, ?_⟩
            unfold rsetEx at hs
            split at hs
            · cases hs
              rfl
            · nomatch hs

theorem deleteSessionToken_cases (st : Redis) (tok : Option String) :
    deleteSessionToken st tok = st ∨
    ∃ t, deleteSessionToken st tok =
      { st with entries := st.entries.filter (fun p => p.1 != RKey.session t) } := by
  unfold deleteSessionToken
  cases tok with
  | none => exact Or.inl rfl
  | some t =>
    rcases hd : rdel st (RKey.session t) with e | st2
    · simp [hd]
    · simp only [hd]
      right
      refine ⟨t, ?_⟩
      unfold rdel at hd
      split at hd
      · cases hd
        rfl
      · nomatch hd

/-- After a successful consume, the store holds no entry under the consumed
challenge key (read-and-delete). -/
theorem consume_ok_filter {st : Redis} {T c : String} {st1 : Redis}
    (h : getAndValidateChallenge st (some T) = (some c, st1)) :
    st1.entries = st.entries.filter (fun p => p.1 != RKey.challenge T) := by
  simp only [getAndValidateChallenge] at h
  split at h
  · simp at h
  · simp at h
  · split at h
    · simp at h
    · split at h
      · simp at h
      · split at h
        · simp at h
        · rename_i st2 hd
          cases h
          unfold rdel at hd
          split at hd
          · cases hd
            rfl
          · nomatch hd

theorem consume_ok_absent {st : Redis} {T c : String} {st1 : Redis}
    (h : getAndValidateChallenge st (some T) = (some c, st1)) :
    ∀ p ∈ st1.entries, p.1 ≠ RKey.challenge T := by
  intro p hp
  rw [consume_ok_filter h] at hp
  simpa using (List.mem_filter.mp hp).2

/-- Consuming an absent challenge key yields `null`, whether the store is
up (lookup misses) or down (error caught). -/
theorem consume_none_of_absent {st : Redis} {T : String}
    (habs : ∀ p ∈ st.entries, p.1 ≠ RKey.challenge T) :
    (getAndValidateChallenge st (some T)).1 = none := by
  have hfind : st.entries.find? (fun p => p.1 == RKey.challenge T) = none :=
    List.find?_eq_none.mpr (fun p hp => by simpa using habs p hp)
  cases hu : st.up <;>
    simp [getAndValidateChallenge, rget, rlookup, hu, hfind]

theorem applyOp_absent {st : Redis} {T : String} (op : Op)
    (habs : ∀ p ∈ st.entries, p.1 ≠ RKey.challenge T)
    (hop : (!Op.mintsToken T op) = true) :
    ∀ p ∈ (applyOp st op).entries, p.1 ≠ RKey.challenge T := by
  cases op with
  | mint t ch =>
    have ht : t ≠ T := by simpa [Op.mintsToken] using hop
    intro p hp
    simp only [applyOp] at hp
    rcases hs : storeChallenge st t ch with e | pr
    · simp only [hs] at hp
      exact habs p hp
    · obtain ⟨tk, st1⟩ := pr
      simp only [hs] at hp
      rcases mem_of_mem_rsetEx (storeChallenge_ok hs) p hp with h3 | h4
      · rw [h3]
        simp [ht]
      · exact habs p h4
  | consume tok =>
    intro p hp
    simp only [applyOp] at hp
    rcases consume_entries_cases st tok with hcase | ⟨t, _, hcase⟩ <;> rw [hcase] at hp
    · exact habs p hp
    · exact habs p (List.mem_filter.mp hp).1
  | screate t sid uid uname =>
    intro p hp
    simp only [applyOp] at hp
    rcases hs : createSessionToken st t sid uid uname with e | pr
    · simp only [hs] at hp
      exact habs p hp
    · obtain ⟨tk, st1⟩ := pr
      simp only [hs] at hp
      rcases mem_of_mem_rsetEx (createSessionToken_ok hs) p hp with h3 | h4
      · rw [h3]
        simp
      · exact habs p h4
  | svalidate tok =>
    intro p hp
    simp only [applyOp] at hp
    rcases validate_entries_cases st tok with hcase | ⟨t, e, _, hcase⟩ <;> rw [hcase] at hp
    · exact habs p hp
    · rcases List.mem_cons.mp hp with h1 | h2
      · rw [h1]
        simp
      · exact habs p (List.mem_filter.mp h2).1
  | sdelete tok =>
    intro p hp
    simp only [applyOp] at hp
    rcases deleteSessionToken_cases st tok with hcase | ⟨t, hcase⟩ <;> rw [hcase] at hp
    · exact habs p hp
    · exact habs p (List.mem_filter.mp hp).1
  | tick ms =>
    intro p hp
    simp only [applyOp] at hp
    exact habs p hp

theorem applyOps_absent {T : String} {ops : List Op} {st : Redis}
    (habs : ∀ p ∈ st.entries, p.1 ≠ RKey.challenge T)
    (hops : ops.all (fun op => !Op.mintsToken T op) = true) :
    ∀ p ∈ (applyOps st ops).entries, p.1 ≠ RKey.challenge T := by
  induction ops generalizing st with
  | nil => exact habs
  | cons op rest ih =>
    rw [List.all_cons, Bool.and_eq_true] at hops
    exact ih (applyOp_absent op habs hops.1) hops.2

/-- C1: challenges are single-use — after a successful
`getAndValidateChallenge` of token `T`, the record is permanently removed,
so after any sequence of store operations that does not mint the same
token again, a second consume of `T` returns `null`. -/
theorem challenge_single_use (st : Redis) (T c : String) (st1 : Redis) (ops : List Op)
    (h : getAndValidateChallenge st (some T) = (some c, st1))
    (hops : ops.all (fun op => !Op.mintsToken T op) = true) :
    (getAndValidateChallenge (applyOps st1 ops) (some T)).1 = none :=
  consume_none_of_absent (applyOps_absent (consume_ok_absent h) hops)

/-- C1 witness: a concrete store holding challenge token "T", successfully
consumed, then a mint of a different token, a clock tick and a redundant
consume; the second consume of "T" yields `null`. -/
theorem challenge_single_use_witness :
    (getAndValidateChallenge
        ⟨true, 0, [(RKey.challenge "T", ⟨RVal.chal "A", 300000⟩)]⟩ (some "T") =
      (some "A", ⟨true, 0, []⟩)) ∧
    (([Op.mint "U" "B", Op.tick 1000, Op.consume (some "T")].all
      (fun op => !Op.mintsToken "T" op)) = true) ∧
    (getAndValidateChallenge
      (applyOps ⟨true, 0, []⟩ [Op.mint "U" "B", Op.tick 1000, Op.consume (some "T")])
      (some "T")).1 = none :=
  ⟨by decide, by decide,
   challenge_single_use ⟨true, 0, [(RKey.challenge "T", ⟨RVal.chal "A", 300000⟩)]⟩
     "T" "A" ⟨true, 0, []⟩ _ (by decide) (by decide)⟩

/-! ### Session-store inversion lemmas (C3, C6 support) -/

theorem rsetEx_ok_inv {st : Redis} {k : RKey} {secs : Nat} {v : RVal} {st1 : Redis}
    (h : rsetEx st k secs v = .ok st1) :
    st.up = true ∧
    st1 = { st with entries := (k, ⟨v, st.now + secs * 1000⟩) ::
      st.entries.filter (fun p => p.1 != k) } := by
  unfold rsetEx at h
  split at h
  · rename_i hu
    cases h
    exact ⟨hu, rfl⟩
  · nomatch h

theorem rget_ok_some_inv {st : Redis} {k : RKey} {v : RVal}
    (h : rget st k = .ok (some v)) :
    st.up = true ∧ ∃ e, rlookup st k = some e ∧ e.value = v ∧ st.now < e.expiresAt := by
  unfold rget at h
  split at h
  · rename_i hu
    split at h
    · rename_i e he
      split at h
      · rename_i hlt
        cases h
        exact ⟨hu, e, he, rfl, hlt⟩
      · simp at h
    · simp at h
  · nomatch h

/-- Inversion of a successful `validateSessionToken`: the store was up, the
record was present and unexpired with exactly the returned data, and the
resulting state has the entry re-inserted with expiry `now + TTL`. -/
theorem validate_ok_inv {st : Redis} {tok : String} {d : SessionData} {st1 : Redis}
    (h : validateSessionToken st (some tok) = (some d, st1)) :
    st.up = true ∧
    (∃ e, rlookup st (RKey.session tok) = some e ∧ e.value = RVal.sess d ∧
      st.now < e.expiresAt) ∧
    st1 = { st with entries := (RKey.session tok,
        ⟨RVal.sess d, st.now + (SESSION_TOKEN_TIMEOUT / 1000) * 1000⟩) ::
        st.entries.filter (fun p => p.1 != RKey.session tok) } := by
  simp only [validateSessionToken] at h
  split at h
  · simp at h
  · simp at h
  · rename_i v hg
    split at h
    · simp at h
    · rename_i d0 hvs
      split at h
      · simp at h
      · rename_i st2 hs
        cases h
        obtain ⟨hu, e, he, hev, hlt⟩ := rget_ok_some_inv hg
        cases v with
        | chal c => simp [RVal.asSess] at hvs
        | sess dd =>
          simp only [RVal.asSess, Option.some.injEq] at hvs
          subst hvs
          obtain ⟨hu2, hst⟩ := rsetEx_ok_inv hs
          exact ⟨hu, ⟨e, he, hev, hlt⟩, hst⟩

/-- C6: session round-trip — after `createSessionToken` for `userId`
returns token `T`, validating `T` before expiry (with no intervening
destroy) returns the record with that same `userId` (and username), and
after `deleteSessionToken T`, validating `T` returns `null`. -/
theorem session_round_trip (st : Redis) (tok sid uname : String) (uid t2 : Nat)
    (st1 : Redis)
    (hc : createSessionToken st tok sid uid uname = .ok (tok, st1))
    (hlt : t2 < st.now + SESSION_TOKEN_TIMEOUT) :
    (validateSessionToken { st1 with now := t2 } (some tok)).1 =
      some ⟨uid, uname, st.now, sid⟩ ∧
    (validateSessionToken
      (deleteSessionToken { st1 with now := t2 } (some tok)) (some tok)).1 = none := by
  obtain ⟨hu, hst1⟩ := rsetEx_ok_inv (createSessionToken_ok hc)
  subst hst1
  have harith : SESSION_TOKEN_TIMEOUT / 1000 * 1000 = SESSION_TOKEN_TIMEOUT := by decide
  have hlt2 : t2 < st.now + SESSION_TOKEN_TIMEOUT / 1000 * 1000 := by
    rw [harith]
    exact hlt
  constructor
  · simp [validateSessionToken, rget, rlookup, rsetEx, hu, RVal.asSess, hlt2]
  · have hfind : ∀ (l : List (RKey × Entry)),
        (l.filter (fun p => p.1 != RKey.session tok)).find?
          (fun p => p.1 == RKey.session tok) = none := by
      intro l
      apply List.find?_eq_none.mpr
      intro p hp
      simpa using (List.mem_filter.mp hp).2
    simp [deleteSessionToken, rdel, hu, validateSessionToken, rget, rlookup, hfind]

/-- C6 witness: a concrete create / validate / destroy / validate run. -/
theorem session_round_trip_witness :
    (createSessionToken ⟨true, 0, []⟩ "s" "i" 7 "alice" =
      .ok ("s", ⟨true, 0,
        [(RKey.session "s", ⟨RVal.sess ⟨7, "alice", 0, "i"⟩, 604800000⟩)]⟩)) ∧
    (5 < 0 + SESSION_TOKEN_TIMEOUT) ∧
    ((validateSessionToken
        ⟨true, 5, [(RKey.session "s", ⟨RVal.sess ⟨7, "alice", 0, "i"⟩, 604800000⟩)]⟩
        (some "s")).1 = some ⟨7, "alice", 0, "i"⟩ ∧
      (validateSessionToken
        (deleteSessionToken
          ⟨true, 5, [(RKey.session "s", ⟨RVal.sess ⟨7, "alice", 0, "i"⟩, 604800000⟩)]⟩
          (some "s")) (some "s")).1 = none) :=
  ⟨by rfl, by decide,
   session_round_trip ⟨true, 0, []⟩ "s" "i" "alice" 7 5
     ⟨true, 0, [(RKey.session "s", ⟨RVal.sess ⟨7, "alice", 0, "i"⟩, 604800000⟩)]⟩
     (by rfl) (by decide)⟩

/-- C3 counterexample: a session record stored at time 0 with expiry
604800000; a `validateSessionToken` call at time 1000 rewrites the stored
entry with expiry 604801000, i.e. the stored TTL window is extended by the
validate call, contradicting the claim that validate leaves the stored TTL
unchanged. -/
theorem validate_extends_stored_ttl :
    rlookup ((validateSessionToken
        ⟨true, 1000, [(RKey.session "s", ⟨RVal.sess ⟨7, "alice", 0, "sid"⟩, 604800000⟩)]⟩
        (some "s")).2) (RKey.session "s") =
      some ⟨RVal.sess ⟨7, "alice", 0, "sid"⟩, 604801000⟩ ∧
    rlookup ⟨true, 1000, [(RKey.session "s", ⟨RVal.sess ⟨7, "alice", 0, "sid"⟩, 604800000⟩)]⟩
      (RKey.session "s") =
      some ⟨RVal.sess ⟨7, "alice", 0, "sid"⟩, 604800000⟩ := by
  decide

/-- C3 amended: `validateSessionToken` slides the stored TTL — after a
successful validate the stored entry expires at `now + SESSION_TOKEN_TIMEOUT`
— but it returns the stored record unchanged (`loginTime` is preserved), so
the `expiresAt` advertised by the status endpoint, computed as
`loginTime + SESSION_TOKEN_TIMEOUT`, is the same across validate/status
calls at different times; only the storage-level expiry moves. -/
theorem validate_slides_ttl_fixed_advertised_expiry (st : Redis) (tok : String)
    (d : SessionData) (st1 : Redis)
    (h : validateSessionToken st (some tok) = (some d, st1)) :
    rlookup st1 (RKey.session tok) =
      some ⟨RVal.sess d, st.now + SESSION_TOKEN_TIMEOUT⟩ ∧
    (∀ t2 r2 st2, authStatusTokenBranch { st1 with now := t2 } (some tok) = (r2, st2) →
      r2.authenticated = true →
      r2.expiresAt = some (d.loginTime + SESSION_TOKEN_TIMEOUT)) := by
  obtain ⟨hu, ⟨e, he, hev, hlte⟩, hst1⟩ := validate_ok_inv h
  have harith : SESSION_TOKEN_TIMEOUT / 1000 * 1000 = SESSION_TOKEN_TIMEOUT := by decide
  constructor
  · subst hst1
    simp [rlookup, harith]
  · intro t2 r2 st2 hstat hauth
    rcases hv : validateSessionToken { st1 with now := t2 } (some tok) with ⟨o, stv⟩
    simp only [authStatusTokenBranch, hv] at hstat
    cases o with
    | none =>
      cases hstat
      simp [StatusResponse.unauthenticated] at hauth
    | some d2 =>
      cases hstat
      have hd2 : d2 = d := by
        obtain ⟨-, ⟨e2, he2, hev2, -⟩, -⟩ := validate_ok_inv hv
        have hlook : rlookup { st1 with now := t2 } (RKey.session tok) =
            some ⟨RVal.sess d, st.now + SESSION_TOKEN_TIMEOUT / 1000 * 1000⟩ := by
          rw [hst1]
          simp [rlookup]
        rw [hlook] at he2
        cases he2
        simpa using hev2.symm
      rw [hd2]

/-- C3 amended witness: the concrete store of the counterexample run
through the amended theorem — the stored expiry slides to `now + TTL`
while the status endpoint keeps advertising `loginTime + TTL`. -/
theorem validate_slides_ttl_witness :
    rlookup ((validateSessionToken
        ⟨true, 1000, [(RKey.session "s", ⟨RVal.sess ⟨7, "alice", 0, "sid"⟩, 604800000⟩)]⟩
        (some "s")).2) (RKey.session "s") =
      some ⟨RVal.sess ⟨7, "alice", 0, "sid"⟩, 1000 + SESSION_TOKEN_TIMEOUT⟩ ∧
    ((authStatusTokenBranch
        { (validateSessionToken
            ⟨true, 1000, [(RKey.session "s", ⟨RVal.sess ⟨7, "alice", 0, "sid"⟩, 604800000⟩)]⟩
            (some "s")).2 with now := 2000 } (some "s")).1).expiresAt =
      some ((0 : Nat) + SESSION_TOKEN_TIMEOUT) := by
  have T := validate_slides_ttl_fixed_advertised_expiry
    ⟨true, 1000, [(RKey.session "s", ⟨RVal.sess ⟨7, "alice", 0, "sid"⟩, 604800000⟩)]⟩
    "s" ⟨7, "alice", 0, "sid"⟩
    ⟨true, 1000, [(RKey.session "s", ⟨RVal.sess ⟨7, "alice", 0, "sid"⟩, 604801000⟩)]⟩
    (by rfl)
  exact ⟨T.1, T.2 2000 _ _ rfl rfl⟩

/-- C9: the validator validates the trimmed input, but user creation stores
the raw input lowercased without trimming: a username whose trimmed form is
valid and whose raw (lowercased) form misses every existing row is accepted
by registration-begin, which creates a row storing the lowercased raw
string (whitespace retained) — a row distinct from the row holding the
trimmed username, which remains in the table. -/
theorem registerBegin_stores_untrimmed (db : DB) (u : String) (ra : UserRow)
    (hv : (validateUsername u).isValid = true)
    (hmem : ra ∈ db.users) (hra : ra.username = jsToLower (jsTrim u))
    (hmiss : getUserByUsername db u = none)
    (hne : jsToLower u ≠ jsToLower (jsTrim u)) :
    registerBeginFindUser db u =
      .ok (⟨db.users.length, jsToLower u⟩,
        { db with users := db.users ++ [⟨db.users.length, jsToLower u⟩] }) ∧
    (⟨db.users.length, jsToLower u⟩ : UserRow).username ≠ ra.username ∧
    ra ∈ (db.users ++ [⟨db.users.length, jsToLower u⟩]) := by
  have h1 : ¬ u = "" := by
    intro h
    simp [validateUsername, h] at hv
  have h2 : ¬ jsTrim u = "" := by
    intro h
    simp [validateUsername, h] at hv
  refine ⟨?_, ?_, List.mem_append_left _ hmem⟩
  · simp [registerBeginFindUser, findOrCreateUser, createUser, hv, h1, h2, hmiss]
  · simpa [hra] using hne

/-- C9 witness: registering " alice " (with spaces) while the row "alice"
exists creates a second, distinct row storing " alice ". -/
theorem registerBegin_stores_untrimmed_witness :
    registerBeginFindUser ⟨[⟨0, "alice"⟩], []⟩ " alice " =
      .ok (⟨1, " alice "⟩, ⟨[⟨0, "alice"⟩, ⟨1, " alice "⟩], []⟩) ∧
    (⟨1, " alice "⟩ : UserRow).username ≠ ("alice" : String) := by
  have T := registerBegin_stores_untrimmed ⟨[⟨0, "alice"⟩], []⟩ " alice " ⟨0, "alice"⟩
    (by decide) (by decide) (by decide) (by decide) (by decide)
  exact ⟨T.1, T.2.1⟩

/-- C4 counterexample: stored challenge "A" under token "t1"; the request
embeds challenge "B" in its client-data payload (mismatch with the stored
bytes) while every other library check passes; the handler consumes the
token and the rejection is "Authentication verification failed"
(VerificationFailed), not "Invalid or expired challenge". -/
theorem auth_mismatch_not_challenge_error :
    ((authenticateComplete
        ⟨⟨true, 0, [(RKey.challenge "t1", ⟨RVal.chal "A", 300000⟩)]⟩,
         ⟨[⟨0, "alice"⟩], [⟨"c1", 0, "r1", "pk", "localhost", 5⟩]⟩⟩
        ⟨some ⟨"c1", "r1", "B", true, 6⟩, some "t1"⟩
        (fun s => s) "sid" "tk").1.error =
      some "Authentication verification failed") ∧
    ((authenticateComplete
        ⟨⟨true, 0, [(RKey.challenge "t1", ⟨RVal.chal "A", 300000⟩)]⟩,
         ⟨[⟨0, "alice"⟩], [⟨"c1", 0, "r1", "pk", "localhost", 5⟩]⟩⟩
        ⟨some ⟨"c1", "r1", "B", true, 6⟩, some "t1"⟩
        (fun s => s) "sid" "tk").1.error ≠
      some "Invalid or expired challenge") := by
  decide

/-- C4 amended: authentication-complete consumes the challenge store keyed
by the caller-supplied token — an absent/expired token is rejected with
"Invalid or expired challenge" whatever the embedded value — but the
handler performs no equality check of its own between the embedded
challenge and the stored bytes: a mismatch flows into the verification
adapter and surfaces as "Authentication verification failed", not as the
challenge rejection. -/
theorem authenticateComplete_challenge_paths (st : ServerState)
    (cred : AuthCredential) (tok : String) (normalizeB64 : String → String)
    (sid tk : String) (w : CredWithOwner)
    (hfound : getCredentialById st.db cred.id = some w) :
    ((getAndValidateChallenge st.redis (some tok)).1 = none →
      (authenticateComplete st ⟨some cred, some tok⟩ normalizeB64 sid tk).1 =
        { ApiResponse.empty with
            status := 400
            error := some "Invalid or expired challenge" }) ∧
    (∀ chal redis1, getAndValidateChallenge st.redis (some tok) = (some chal, redis1) →
      cred.embeddedChallenge ≠ chal →
      (authenticateComplete st ⟨some cred, some tok⟩ normalizeB64 sid tk).1 =
        { ApiResponse.empty with
            status := 400
            error := some "Authentication verification failed" }) := by
  constructor
  · intro hnone
    rcases hc : getAndValidateChallenge st.redis (some tok) with ⟨o, redis1⟩
    rw [hc] at hnone
    simp only at hnone
    subst hnone
    simp [authenticateComplete, hfound, hc]
  · intro chal redis1 hc hne
    have hbeq : (cred.embeddedChallenge == chal) = false := by
      simpa using hne
    simp [authenticateComplete, hfound, hc, verifyAuthenticationResponse, hbeq]

/-- C4 amended witness: the two paths at concrete inputs — an absent token
is rejected as invalid/expired; a present token with mismatching embedded
challenge is rejected as verification failure. -/
theorem authenticateComplete_challenge_paths_witness :
    ((authenticateComplete
        ⟨⟨true, 0, []⟩, ⟨[⟨0, "alice"⟩], [⟨"c1", 0, "r1", "pk", "localhost", 5⟩]⟩⟩
        ⟨some ⟨"c1", "r1", "B", true, 6⟩, some "t1"⟩
        (fun s => s) "sid" "tk").1 =
      { ApiResponse.empty with
          status := 400
          error := some "Invalid or expired challenge" }) ∧
    ((authenticateComplete
        ⟨⟨true, 0, [(RKey.challenge "t1", ⟨RVal.chal "A", 300000⟩)]⟩,
         ⟨[⟨0, "alice"⟩], [⟨"c1", 0, "r1", "pk", "localhost", 5⟩]⟩⟩
        ⟨some ⟨"c1", "r1", "B", true, 6⟩, some "t1"⟩
        (fun s => s) "sid" "tk").1 =
      { ApiResponse.empty with
          status := 400
          error := some "Authentication verification failed" }) := by
  constructor
  · exact (authenticateComplete_challenge_paths
      ⟨⟨true, 0, []⟩, ⟨[⟨0, "alice"⟩], [⟨"c1", 0, "r1", "pk", "localhost", 5⟩]⟩⟩
      ⟨"c1", "r1", "B", true, 6⟩ "t1" (fun s => s) "sid" "tk"
      ⟨⟨"c1", 0, "r1", "pk", "localhost", 5⟩, "alice"⟩ (by decide)).1 (by decide)
  · exact (authenticateComplete_challenge_paths
      ⟨⟨true, 0, [(RKey.challenge "t1", ⟨RVal.chal "A", 300000⟩)]⟩,
       ⟨[⟨0, "alice"⟩], [⟨"c1", 0, "r1", "pk", "localhost", 5⟩]⟩⟩
      ⟨"c1", "r1", "B", true, 6⟩ "t1" (fun s => s) "sid" "tk"
      ⟨⟨"c1", 0, "r1", "pk", "localhost", 5⟩, "alice"⟩ (by decide)).2
      "A" ⟨true, 0, []⟩ (by decide) (by decide)

/-- C5 counterexample: with the store unavailable, consuming a token
returns null and register-complete answers "Invalid or expired challenge"
— byte-for-byte the same response as for an absent challenge with storage
healthy — so the client IS told the challenge is invalid when the real
cause is storage unavailability. -/
theorem consume_storage_failure_masked :
    (getAndValidateChallenge
        ⟨false, 0, [(RKey.challenge "t1", ⟨RVal.chal "A", 300000⟩)]⟩ (some "t1") =
      (none, ⟨false, 0, [(RKey.challenge "t1", ⟨RVal.chal "A", 300000⟩)]⟩)) ∧
    ((registerComplete
        ⟨⟨false, 0, [(RKey.challenge "t1", ⟨RVal.chal "A", 300000⟩)]⟩, ⟨[⟨0, "alice"⟩], []⟩⟩
        ⟨"alice", some ⟨"c1", "A", true, "r1", "pk"⟩, some "t1"⟩ "sid" "tk").1 =
      (registerComplete ⟨⟨true, 0, []⟩, ⟨[⟨0, "alice"⟩], []⟩⟩
        ⟨"alice", some ⟨"c1", "A", true, "r1", "pk"⟩, some "t1"⟩ "sid" "tk").1) ∧
    ((registerComplete
        ⟨⟨false, 0, [(RKey.challenge "t1", ⟨RVal.chal "A", 300000⟩)]⟩, ⟨[⟨0, "alice"⟩], []⟩⟩
        ⟨"alice", some ⟨"c1", "A", true, "r1", "pk"⟩, some "t1"⟩ "sid" "tk").1.error =
      some "Invalid or expired challenge") := by
  decide

/-- C5 amended: only minting distinguishes storage failure — with the
store unavailable, `getAndValidateChallenge` deliberately returns null
(graceful degradation) and register-complete answers "Invalid or expired
challenge", while `storeChallenge` propagates a distinct error that
register-begin maps to the retryable 500 "service temporarily unavailable"
response. -/
theorem storage_failure_consume_vs_mint (redis : Redis) (h : redis.up = false)
    (tok t c : String) (db : DB) (cred : RegCredential) (uname sid tk : String)
    (hne : uname ≠ "") :
    (getAndValidateChallenge redis (some tok) = (none, redis)) ∧
    ((registerComplete ⟨redis, db⟩ ⟨uname, some cred, some tok⟩ sid tk).1 =
      { ApiResponse.empty with
          status := 400
          error := some "Invalid or expired challenge" }) ∧
    (storeChallenge redis t c = .error ()) ∧
    ((registerBeginStoreChallenge redis t c).1 =
      { ApiResponse.empty with
          status := 500
          error := some "Registration service temporarily unavailable. Please try again later." }) := by
  have hcons : getAndValidateChallenge redis (some tok) = (none, redis) := by
    simp [getAndValidateChallenge, rget, h]
  have hstore : storeChallenge redis t c = .error () := by
    simp [storeChallenge, rsetEx, h]
  refine ⟨hcons, ?_, hstore, ?_⟩
  · simp [registerComplete, hne, hcons]
  · simp [registerBeginStoreChallenge, hstore]

/-- C5 amended witness at a concrete down store. -/
theorem storage_failure_consume_vs_mint_witness :
    (getAndValidateChallenge ⟨false, 0, []⟩ (some "t1") = (none, ⟨false, 0, []⟩)) ∧
    ((registerComplete ⟨⟨false, 0, []⟩, ⟨[⟨0, "alice"⟩], []⟩⟩
        ⟨"alice", some ⟨"c1", "A", true, "r1", "pk"⟩, some "t1"⟩ "sid" "tk").1 =
      { ApiResponse.empty with
          status := 400
          error := some "Invalid or expired challenge" }) ∧
    (storeChallenge ⟨false, 0, []⟩ "t2" "B" = .error ()) ∧
    ((registerBeginStoreChallenge ⟨false, 0, []⟩ "t2" "B").1 =
      { ApiResponse.empty with
          status := 500
          error := some "Registration service temporarily unavailable. Please try again later." }) :=
  storage_failure_consume_vs_mint ⟨false, 0, []⟩ (by decide) "t1" "t2" "B"
    ⟨[⟨0, "alice"⟩], []⟩ ⟨"c1", "A", true, "r1", "pk"⟩ "alice" "sid" "tk" (by decide)

/-- C2 counterexample: a registration-complete hitting the pre-check
duplicate (credential id already stored) returns success with the
informational message but WITHOUT issuing any session: no session token,
no session id in the response, and no session record in the store — the
pre-check duplicate path is not treated identically to the save-conflict
path, which does issue a session. -/
theorem precheck_duplicate_issues_no_session :
    ((registerComplete
        ⟨⟨true, 0, [(RKey.challenge "t1", ⟨RVal.chal "A", 300000⟩)]⟩,
         ⟨[⟨0, "alice"⟩], [⟨"c1", 0, "r1", "pk", "localhost", 0⟩]⟩⟩
        ⟨"alice", some ⟨"c1", "A", true, "r1", "pk"⟩, some "t1"⟩ "sid" "tk").1 =
      { ApiResponse.empty with
          status := 200
          verified := some true
          credentialId := some "c1"
          username := some "alice"
          message := some "Credential already registered" }) ∧
    ((registerComplete
        ⟨⟨true, 0, [(RKey.challenge "t1", ⟨RVal.chal "A", 300000⟩)]⟩,
         ⟨[⟨0, "alice"⟩], [⟨"c1", 0, "r1", "pk", "localhost", 0⟩]⟩⟩
        ⟨"alice", some ⟨"c1", "A", true, "r1", "pk"⟩, some "t1"⟩ "sid" "tk").1.sessionToken =
      none) ∧
    (rlookup (registerComplete
        ⟨⟨true, 0, [(RKey.challenge "t1", ⟨RVal.chal "A", 300000⟩)]⟩,
         ⟨[⟨0, "alice"⟩], [⟨"c1", 0, "r1", "pk", "localhost", 0⟩]⟩⟩
        ⟨"alice", some ⟨"c1", "A", true, "r1", "pk"⟩, some "t1"⟩ "sid" "tk").2.redis
      (RKey.session "tk") = none) := by
  decide

/-- C2 amended: both duplicate paths return success (HTTP 200,
verified:true) with an informational message and neither is a hard error,
but they are not identical: the pre-check duplicate answers "Credential
already registered" and issues no session, while a storage-level
uniqueness conflict at save time (PostgreSQL 23505) answers with a
constraint-dependent message and issues a fresh session (cookie session id
and, with storage available, a session token) reusing the owning user. -/
theorem registerComplete_duplicate_paths :
    (∀ (st : ServerState) (uname : String) (cred : RegCredential)
        (tok sid tk chal : String) (redis1 : Redis) (user : UserRow)
        (w : CredWithOwner),
      uname ≠ "" →
      getAndValidateChallenge st.redis (some tok) = (some chal, redis1) →
      getUserByUsername st.db uname = some user →
      getCredentialById st.db cred.id = some w →
      registerComplete st ⟨uname, some cred, some tok⟩ sid tk =
        ({ ApiResponse.empty with
             status := 200
             verified := some true
             credentialId := some cred.id
             username := some user.username
             message := some "Credential already registered" },
         { st with redis := redis1 })) ∧
    (∀ (st : ServerState) (uname : String) (cred : RegCredential)
        (tok sid tk chal : String) (redis1 : Redis) (user : UserRow)
        (info : RegistrationInfo) (pc : PgConstraint) (tok2 : String)
        (redis2 : Redis),
      uname ≠ "" →
      getAndValidateChallenge st.redis (some tok) = (some chal, redis1) →
      getUserByUsername st.db uname = some user →
      getCredentialById st.db cred.id = none →
      verifyRegistrationResponse cred chal = ⟨true, some info⟩ →
      saveCredential st.db user.id cred.id info.credentialPublicKey
        info.credentialID RP_ID = .error pc →
      createSessionToken redis1 tk sid user.id user.username = .ok (tok2, redis2) →
      registerComplete st ⟨uname, some cred, some tok⟩ sid tk =
        ({ ApiResponse.empty with
             status := 200
             verified := some true
             credentialId := some cred.id
             username := some uname
             message := some (match pc with
               | .uniqueUserRp => "User already has a passkey for this service"
               | .uniqueRawId => "This passkey is already registered"
               | .pkey => "Credential already registered")
             sessionId := some sid
             sessionToken := some tok2 },
         { redis := redis2, db := st.db })) := by
  constructor
  · intro st uname cred tok sid tk chal redis1 user w huname hcons huser hcred
    simp [registerComplete, huname, hcons, huser, hcred]
  · intro st uname cred tok sid tk chal redis1 user info pc tok2 redis2
      huname hcons huser hcred hver hsave hsess
    simp [registerComplete, huname, hcons, huser, hcred, hver, hsave, hsess]

/-- C2 amended witness: the pre-check duplicate path (existing credential
id "c1") and the 23505 path (fresh credential id but an existing
credential for the same user and relying party) at concrete inputs. -/
theorem registerComplete_duplicate_paths_witness :
    (registerComplete
        ⟨⟨true, 0, [(RKey.challenge "t1", ⟨RVal.chal "A", 300000⟩)]⟩,
         ⟨[⟨0, "alice"⟩], [⟨"c1", 0, "r1", "pk", "localhost", 0⟩]⟩⟩
        ⟨"alice", some ⟨"c1", "A", true, "r1", "pk"⟩, some "t1"⟩ "sid" "tk" =
      ({ ApiResponse.empty with
           status := 200
           verified := some true
           credentialId := some "c1"
           username := some "alice"
           message := some "Credential already registered" },
       ⟨⟨true, 0, []⟩, ⟨[⟨0, "alice"⟩], [⟨"c1", 0, "r1", "pk", "localhost", 0⟩]⟩⟩)) ∧
    (registerComplete
        ⟨⟨true, 0, [(RKey.challenge "t1", ⟨RVal.chal "A", 300000⟩)]⟩,
         ⟨[⟨0, "alice"⟩], [⟨"cOld", 0, "rOld", "pk", "localhost", 0⟩]⟩⟩
        ⟨"alice", some ⟨"cNew", "A", true, "rNew", "pkNew"⟩, some "t1"⟩ "sid" "tk" =
      ({ ApiResponse.empty with
           status := 200
           verified := some true
           credentialId := some "cNew"
           username := some "alice"
           message := some "User already has a passkey for this service"
           sessionId := some "sid"
           sessionToken := some "tk" },
       ⟨⟨true, 0, [(RKey.session "tk", ⟨RVal.sess ⟨0, "alice", 0, "sid"⟩, 604800000⟩)]⟩,
        ⟨[⟨0, "alice"⟩], [⟨"cOld", 0, "rOld", "pk", "localhost", 0⟩]⟩⟩)) := by
  constructor
  · exact registerComplete_duplicate_paths.1
      ⟨⟨true, 0, [(RKey.challenge "t1", ⟨RVal.chal "A", 300000⟩)]⟩,
       ⟨[⟨0, "alice"⟩], [⟨"c1", 0, "r1", "pk", "localhost", 0⟩]⟩⟩
      "alice" ⟨"c1", "A", true, "r1", "pk"⟩ "t1" "sid" "tk" "A" ⟨true, 0, []⟩
      ⟨0, "alice"⟩ ⟨⟨"c1", 0, "r1", "pk", "localhost", 0⟩, "alice"⟩
      (by decide) (by decide) (by decide) (by decide)
  · exact registerComplete_duplicate_paths.2
      ⟨⟨true, 0, [(RKey.challenge "t1", ⟨RVal.chal "A", 300000⟩)]⟩,
       ⟨[⟨0, "alice"⟩], [⟨"cOld", 0, "rOld", "pk", "localhost", 0⟩]⟩⟩
      "alice" ⟨"cNew", "A", true, "rNew", "pkNew"⟩ "t1" "sid" "tk" "A" ⟨true, 0, []⟩
      ⟨0, "alice"⟩ ⟨"pkNew", "rNew"⟩ PgConstraint.uniqueUserRp "tk"
      ⟨true, 0, [(RKey.session "tk", ⟨RVal.sess ⟨0, "alice", 0, "sid"⟩, 604800000⟩)]⟩
      (by decide) (by decide) (by decide) (by decide) (by decide) (by rfl) (by rfl)

end Passkeys
